import Mathlib

/-!
Verification development for the PVN (Per-user Virtual Network) controller.

The definitions below are a shallow embedding of the Python sources:
  * `model`  embeds `pvn_controller/model.py` (the in-memory PVN registry);
  * `driver` embeds `pvn_controller/driver.py` (validation, steering
    assembly, provisioning and teardown);
  * `api`    embeds `pvn_controller/api.py` (the HTTP handlers);
  * `agent`  embeds `neutron_ext/port_steering/ovs_agent/extension.py`
    (`_prepare_matches`) and `plugin` the create-time invariants of
    `neutron_ext/port_steering/model.py`.

The Python dictionary `PVN_DB` is embedded as an association list in
insertion order, mutation as explicit state passing, a raised exception as
an `Option` error component returned together with the state reached at
raise time (Python mutations performed before a `raise` stay visible, and
the embedding keeps them).  Green threads spawned by `eventlet` are
embedded by collecting the effect each spawned task performs into trace
lists.  External services (Neutron, Zun, the steering REST resource) are
oracles supplied as function-valued `Backend` fields.
-/

namespace model

/-- Statuses of a PVN record, from `model.py` (`class Status`). -/
inductive Status where
  | INIT_PORTS
  | INIT_APPS
  | INIT_STEERING
  | ACTIVE
  | TEARING_DOWN
  | DELETED
deriving DecidableEq, Repr

/-- One value of `PVN_DB`: the per-PVN record built by `create_pvn`. -/
structure PVNData where
  client_ip : String
  status : Status
  ports : List String
  apps : List String
  steering : List String
deriving DecidableEq, Repr

/-- The module-level mutable state of `model.py`: `PVN_DB` and `_NEXT_ID`. -/
structure ModelState where
  pvn_db : List (Nat × PVNData)
  next_id : Nat
deriving DecidableEq, Repr

/-- Exceptions the model can raise: `PVNInvalidState`, and Python's
`KeyError` from indexing `PVN_DB` with an absent id. -/
inductive ModelError where
  | invalidState
  | keyError
deriving DecidableEq, Repr

/-- `PVN_DB.get(pvn_id)` / `PVN_DB[pvn_id]` lookup. -/
def dbGet (db : List (Nat × PVNData)) (pvn_id : Nat) : Option PVNData :=
  (db.find? (fun kv => kv.1 == pvn_id)).map (fun kv => kv.2)

/-- `PVN_DB[pvn_id] = data` on an existing key (insertion order kept). -/
def dbSet (db : List (Nat × PVNData)) (pvn_id : Nat) (d : PVNData) :
    List (Nat × PVNData) :=
  db.map (fun kv => if kv.1 == pvn_id then (kv.1, d) else kv)

/-- `get_pvn_by_client_ip`: first non-DELETED record with this client ip,
in `PVN_DB` iteration (= insertion) order.  The source returns a deep
copy; in the pure embedding the copy is the value itself. -/
def get_pvn_by_client_ip (s : ModelState) (client_ip : String) :
    Option PVNData :=
  (s.pvn_db.find? (fun kv =>
    kv.2.client_ip == client_ip && kv.2.status != Status.DELETED)).map
    (fun kv => kv.2)

/-- `get_pvn`: deep copy of the record, or `None`. -/
def get_pvn (s : ModelState) (pvn_id : Nat) : Option PVNData :=
  dbGet s.pvn_db pvn_id

/-- `get_pvn_status`. -/
def get_pvn_status (s : ModelState) (pvn_id : Nat) : Option Status :=
  (dbGet s.pvn_db pvn_id).map (fun d => d.status)

/-- `create_pvn`: allocates `_NEXT_ID`, installs an `INIT_PORTS` record. -/
def create_pvn (s : ModelState) (client_ip : String) : ModelState × Nat :=
  let new_id := s.next_id
  ({ pvn_db := s.pvn_db ++
      [(new_id,
        { client_ip := client_ip
          status := Status.INIT_PORTS
          ports := []
          apps := []
          steering := [] })]
     next_id := s.next_id + 1 },
   new_id)

/-- `set_ports`.  The source assigns the `ports` field FIRST and only then
checks the status, so on `PVNInvalidState` the returned state already
carries the new ports. -/
def set_ports (s : ModelState) (pvn_id : Nat) (port_ids : List String) :
    ModelState × Option ModelError :=
  match dbGet s.pvn_db pvn_id with
  | none => (s, some ModelError.keyError)
  | some r0 =>
    let r1 := { r0 with ports := port_ids }
    let s1 := { s with pvn_db := dbSet s.pvn_db pvn_id r1 }
    if r1.status != Status.INIT_PORTS then
      (s1, some ModelError.invalidState)
    else
      ({ s1 with pvn_db := dbSet s1.pvn_db pvn_id ({ r1 with status := Status.INIT_APPS }) }, none)

/-- `set_apps`: same mutate-then-check shape as `set_ports`. -/
def set_apps (s : ModelState) (pvn_id : Nat) (app_ids : List String) :
    ModelState × Option ModelError :=
  match dbGet s.pvn_db pvn_id with
  | none => (s, some ModelError.keyError)
  | some r0 =>
    let r1 := { r0 with apps := app_ids }
    let s1 := { s with pvn_db := dbSet s.pvn_db pvn_id r1 }
    if r1.status != Status.INIT_APPS then
      (s1, some ModelError.invalidState)
    else
      ({ s1 with pvn_db := dbSet s1.pvn_db pvn_id ({ r1 with status := Status.INIT_STEERING }) }, none)

/-- `set_steerings`: same mutate-then-check shape as `set_ports`. -/
def set_steerings (s : ModelState) (pvn_id : Nat) (steerings : List String) :
    ModelState × Option ModelError :=
  match dbGet s.pvn_db pvn_id with
  | none => (s, some ModelError.keyError)
  | some r0 =>
    let r1 := { r0 with steering := steerings }
    let s1 := { s with pvn_db := dbSet s.pvn_db pvn_id r1 }
    if r1.status != Status.INIT_STEERING then
      (s1, some ModelError.invalidState)
    else
      ({ s1 with pvn_db := dbSet s1.pvn_db pvn_id ({ r1 with status := Status.ACTIVE }) }, none)

/-- `teardown_pvn` of `model.py`: unconditionally writes `TEARING_DOWN`
(there is no idempotence guard) and ends WITHOUT a return statement, so
the caller receives Python `None`; the middle component is that returned
value. -/
def teardown_pvn (s : ModelState) (pvn_id : Nat) :
    ModelState × Option Status × Option ModelError :=
  match dbGet s.pvn_db pvn_id with
  | none => (s, none, some ModelError.keyError)
  | some r0 =>
    ({ s with pvn_db := dbSet s.pvn_db pvn_id ({ r0 with status := Status.TEARING_DOWN }) },
     none, none)

/-- `delete_pvn`: requires `TEARING_DOWN`, then writes `DELETED`. -/
def delete_pvn (s : ModelState) (pvn_id : Nat) :
    ModelState × Option ModelError :=
  match dbGet s.pvn_db pvn_id with
  | none => (s, some ModelError.keyError)
  | some r0 =>
    if r0.status != Status.TEARING_DOWN then
      (s, some ModelError.invalidState)
    else
      ({ s with pvn_db := dbSet s.pvn_db pvn_id ({ r0 with status := Status.DELETED }) }, none)

end model

namespace driver

/-- One entry of a chain's `edges` array (see `PVN_SCHEMA` in `driver.py`).
`from`/`to` are Lean keywords, hence the trailing underscore. -/
structure Edge where
  from_ : Int
  to_ : Int
  ethertype : Option String := none
  destination : Option Int := none
  protocol : Option Nat := none
  source_port : Option Nat := none
  destination_port : Option Nat := none
deriving DecidableEq, Repr

/-- One entry of the `chains` array. -/
structure Chain where
  origin : Int
  edges : List Edge
deriving DecidableEq, Repr

/-- A submitted PVN description (`pvn_json`). -/
structure PVNJson where
  apps : List String
  chains : List Chain
deriving DecidableEq, Repr

/-- The structural constraints of `PVN_SCHEMA` on a single edge, including
the `dependentSchemas`: `destination` requires `ethertype`, and either
L4 port requires `protocol` in {6, 17}. -/
def edge_schema_ok (e : Edge) : Bool :=
  e.from_ ≥ -1 && e.to_ ≥ -1 &&
  (match e.ethertype with
   | none => true
   | some t => t == "IPv4" || t == "IPv6") &&
  (match e.destination with
   | none => true
   | some d => d ≥ -1) &&
  (match e.protocol with
   | none => true
   | some pr => pr ≤ 255) &&
  (match e.source_port with
   | none => true
   | some sp => 1 ≤ sp && sp ≤ 65535) &&
  (match e.destination_port with
   | none => true
   | some dp => 1 ≤ dp && dp ≤ 65535) &&
  (!e.destination.isSome || e.ethertype.isSome) &&
  (!e.source_port.isSome ||
    (match e.protocol with | some 6 => true | some 17 => true | _ => false)) &&
  (!e.destination_port.isSome ||
    (match e.protocol with | some 6 => true | some 17 => true | _ => false))

/-- Schema constraints on a chain: `origin ≥ -1`, non-empty `edges`. -/
def chain_schema_ok (c : Chain) : Bool :=
  c.origin ≥ -1 && c.edges.length ≥ 1 && c.edges.all edge_schema_ok

/-- `jsonschema.validate(pvn_json, PVN_SCHEMA)` over the structured
description: non-empty `apps` and `chains` with well-formed members. -/
def pvn_schema_ok (p : PVNJson) : Bool :=
  p.apps.length ≥ 1 && p.chains.length ≥ 1 && p.chains.all chain_schema_ok

/-- The per-edge bound checks of `initialize_pvn` (driver.py lines
127-139), in source order: `from`, then `to`, then `destination`, each
compared with `> max_app_index`. -/
def check_edges_loop (maxA o : Int) : List Edge → Except String Unit
  | [] => Except.ok ()
  | e :: rest =>
    let f := e.from_
    if f > maxA then
      Except.error s!"Chain with origin {o} has edge with invalid from index: {f}."
    else
      let t := e.to_
      if t > maxA then
        Except.error s!"Chain with origin {o} has edge with invalid to index: {t}."
      else
        match e.destination with
        | some d =>
          if d > maxA then
            Except.error s!"Chain with origin {o} has edge with invalid destination specifier: {d}."
          else check_edges_loop maxA o rest
        | none => check_edges_loop maxA o rest

/-- The per-chain bound checks of `initialize_pvn` (lines 125-139):
`origin > max_app_index` is rejected, then each edge is checked. -/
def check_chain_indices (maxA : Int) (c : Chain) : Except String Unit :=
  let o := c.origin
  if o > maxA then Except.error s!"Chain with origin {o} is invalid app index."
  else check_edges_loop maxA o c.edges

/-- The first loop of `initialize_pvn` (lines 118-139): duplicate-origin
check, then the bound checks, accumulating `existing_origins`. -/
def check_chains_loop (maxA : Int) (seen : List Int) :
    List Chain → Except String (List Int)
  | [] => Except.ok seen
  | c :: rest =>
    let o := c.origin
    if o ∈ seen then
      Except.error s!"Can\x27t have multiple app chains with same origin of {o}."
    else
      match check_chain_indices maxA c with
      | Except.error m => Except.error m
      | Except.ok () => check_chains_loop maxA (o :: seen) rest

/-- `_is_single_origin_dag`, fuel-indexed.  The source threads ONE mutable
`visited_nodes` set through the whole walk (it is shared across sibling
branches, not copied per branch) and one `visited_edges` array.  The fold
mirrors the `for i, edge in enumerate(edges)` loop: a `False` from the
recursive call returns immediately, leaving later edges unmarked.  Fuel
only decreases on entering a recursive walk; the source recursion depth is
bounded by the number of distinct nodes (each entry inserts a fresh node),
so `edges.length + 3` fuel (see `is_single_origin_dag`) never runs out. -/
def dagWalk (fuel : Nat) (start : Int) (visited : List Int)
    (edges : List Edge) (ve : List Bool) : Bool × List Int × List Bool :=
  match fuel with
  | 0 => (false, visited, ve)
  | f + 1 =>
    if start ∈ visited then (false, visited, ve)
    else
      let r := edges.foldl
        (fun (acc : Bool × List Int × List Bool × Nat) e =>
          let (ok, vis, veA, i) := acc
          if ok && e.from_ == start then
            let veB := veA.set i true
            let (ok2, vis2, veC) := dagWalk f e.to_ vis edges veB
            (ok2, vis2, veC, i + 1)
          else (ok, vis, veA, i + 1))
        (true, start :: visited, ve, 0)
      (r.1, r.2.1, r.2.2.1)

/-- The call site of `_is_single_origin_dag` (line 148): fresh empty
visited set, all-false `visited_edges`; returns the verdict and the final
`visited_edges` array. -/
def is_single_origin_dag (origin : Int) (edges : List Edge) :
    Bool × List Bool :=
  let r := dagWalk (edges.length + 3) origin [] edges
    (List.replicate edges.length false)
  (r.1, r.2.2)

/-- The second loop of `initialize_pvn` (lines 146-153): the DAG check and
the every-edge-traversed check, per chain. -/
def check_dag_loop : List Chain → Except String Unit
  | [] => Except.ok ()
  | c :: rest =>
    let o := c.origin
    let r := is_single_origin_dag c.origin c.edges
    if !r.1 then Except.error s!"Chain with origin {o} is not a DAG."
    else if !(r.2.all (fun b => b)) then
      Except.error s!"Some edge in chain with origin {o} will never be traversed."
    else check_dag_loop rest

/-- All validation performed by `initialize_pvn` before it touches the
model: schema, first loop, mandatory end-user origin, DAG loop — in
source order. -/
def validate_pvn (p : PVNJson) : Except String Unit :=
  if !pvn_schema_ok p then
    Except.error "Failed to validate JSON schema."
  else
    let maxA : Int := (p.apps.length : Int)
    match check_chains_loop maxA [] p.chains with
    | Except.error m => Except.error m
    | Except.ok origins =>
      if !((-1 : Int) ∈ origins) then
        Except.error "Must have an app chain with an origin at the end user (i.e. origin of -1)."
      else check_dag_loop p.chains

/-- `initialize_pvn` after validation: duplicate-client check against the
model, then `create_pvn`; the spawned `_start_pvn` background task is
embedded separately as `start_pvn`. -/
def initialize_pvn (s : model.ModelState) (client_ip : String)
    (p : PVNJson) : model.ModelState × Except String Nat :=
  match validate_pvn p with
  | Except.error m => (s, Except.error m)
  | Except.ok () =>
    if (model.get_pvn_by_client_ip s client_ip).isSome then
      (s, Except.error "A PVN for this source IP address already exists.")
    else
      let r := model.create_pvn s client_ip
      (r.1, Except.ok r.2)

end driver

namespace driver

/-- The `cfg.CONF.network` options consumed by the driver
(`config.py`: `network.id`, `network.ingress_port`, `network.egress_port`). -/
structure Config where
  network_id : String
  ingress_port : String
  egress_port : String
deriving DecidableEq, Repr

/-- The steering dict built by `_prepare_steering`.  The source dict always
carries `src_neutron_port` and `dest_neutron_port`; the other keys are
present according to the edge, embedded as `Option` fields (`none` =
absent key).  `_prepare_steering` never writes a `src_ip` key; the field
is kept so that statements about it can be made. -/
structure Steering where
  src_neutron_port : String
  dest_neutron_port : String
  ethertype : Option Nat := none
  dest_ip : Option String := none
  protocol : Option Nat := none
  src_port : Option Nat := none
  dest_port : Option Nat := none
  src_ip : Option String := none
deriving DecidableEq, Repr

/-- Python `s[1]` on a string: its second character (as a 1-character
string).  The source raises `IndexError` on strings shorter than 2; the
embedding returns a blank there (never exercised by the theorems). -/
def string_index1 (s : String) : String :=
  String.mk [s.data.getD 1 ' ']

/-- `index_to_port` (the closure inside `_prepare_steering`): `-1` maps to
the configured ingress port id, `len(ports)` to the egress port id, and an
app index to `ports[index][0]`, the created port's id (NOT its ip).
Indices below `-1` are impossible under the schema. -/
def index_to_port (cfg : Config) (ports : List (String × String))
    (i : Int) : String :=
  if i = -1 then cfg.ingress_port
  else if i = (ports.length : Int) then cfg.egress_port
  else (ports.getD i.toNat ("", "")).1

/-- `_prepare_steering(ports, edge)`.  Note the source signature: it takes
no chain origin, no client ip and no PVN ethertype.  `dest_ip` is set to
`index_to_port(edge["destination"])[1]` — element 1 of the RESOLVED PORT
ID STRING, i.e. its second character. -/
def prepare_steering (cfg : Config) (ports : List (String × String))
    (e : Edge) : Steering :=
  { src_neutron_port := index_to_port cfg ports e.from_
    dest_neutron_port := index_to_port cfg ports e.to_
    ethertype :=
      if e.ethertype = some "IPv4" then some 0x0800
      else if e.ethertype = some "IPv6" then some 0x86DD
      else none
    dest_ip := e.destination.map
      (fun d => string_index1 (index_to_port cfg ports d))
    protocol := e.protocol
    src_port := e.source_port
    dest_port := e.destination_port
    src_ip := none }

/-- The inner edge loop of `_start_pvn` (lines 301-323): an edge without
`ethertype` is expanded into an IPv4 and an IPv6 steering; otherwise one
steering is produced. -/
def prepare_edge_steerings (cfg : Config) (ports : List (String × String)) :
    List Edge → List Steering
  | [] => []
  | e :: rest =>
    if e.ethertype = none then
      prepare_steering cfg ports { e with ethertype := some "IPv4" } ::
      prepare_steering cfg ports { e with ethertype := some "IPv6" } ::
      prepare_edge_steerings cfg ports rest
    else
      prepare_steering cfg ports e :: prepare_edge_steerings cfg ports rest

/-- The chain loop of `_start_pvn` (lines 300-323). -/
def prepare_all_steerings (cfg : Config) (ports : List (String × String)) :
    List Chain → List Steering
  | [] => []
  | c :: rest =>
    prepare_edge_steerings cfg ports c.edges ++
    prepare_all_steerings cfg ports rest

/-- Specification-side count: one rule per edge carrying an `ethertype`,
two for an edge without one. -/
def edge_rule_count : List Edge → Nat
  | [] => 0
  | e :: rest => (if e.ethertype = none then 2 else 1) + edge_rule_count rest

/-- Specification-side count summed over chains. -/
def chain_rule_count : List Chain → Nat
  | [] => 0
  | c :: rest => edge_rule_count c.edges + chain_rule_count rest

/-- What the independent delete tasks spawned by `teardown_pvn` delete:
`_delete_steering`, `_stop_container` and `_delete_port` calls, in spawn
order. -/
structure Effects where
  deleted_steerings : List String
  stopped_containers : List String
  deleted_ports : List String
deriving DecidableEq, Repr

/-- No delete task spawned. -/
def emptyEffects : Effects := { deleted_steerings := [], stopped_containers := [], deleted_ports := [] }

/-- `teardown_pvn(pvn_id, force)` of `driver.py`.  `prev_status` is bound
to the value returned by `model.teardown_pvn` — which is always Python
`None` — and compared with `Status.ACTIVE`; with `force == False` the
comparison therefore always triggers the early return.  On the forced
path the snapshot's steering/app/port ids are handed to spawned delete
tasks and `model.delete_pvn` finalizes the record. -/
def teardown_pvn (s : model.ModelState) (pvn_id : Nat) (force : Bool) :
    model.ModelState × Effects × Option model.ModelError :=
  match model.teardown_pvn s pvn_id with
  | (s1, _, some e) => (s1, emptyEffects, some e)
  | (s1, prev_status, none) =>
    if !force && prev_status != some model.Status.ACTIVE then
      (s1, emptyEffects, none)
    else
      match model.get_pvn s1 pvn_id with
      | none => (s1, emptyEffects, some model.ModelError.keyError)
      | some pvn =>
        let eff : Effects :=
          { deleted_steerings := pvn.steering
            stopped_containers := pvn.apps
            deleted_ports := pvn.ports }
        match model.delete_pvn s1 pvn_id with
        | (s2, e) => (s2, eff, e)

/-- The external services `_start_pvn` drives, as oracles.  `none` from an
oracle embeds a raised exception (for `run`, this also covers the
20 × 100 ms polling timeout inside `_create_container`). -/
structure Backend where
  create_port : List (String × String) → Option (List (String × String))
  run : String → String → Option String
  post_steerings : List Steering → Option (List String)

/-- Everything observable a `_start_pvn` execution did: resources created
by it plus resources deleted by the compensating teardown. -/
structure Trace where
  created_ports : List (String × String)
  started_containers : List String
  created_steerings : List Steering
  deleted_steerings : List String
  stopped_containers : List String
  deleted_ports : List String
deriving DecidableEq, Repr

/-- A trace with nothing in it. -/
def emptyTrace : Trace :=
  { created_ports := [], started_containers := [], created_steerings := []
    deleted_steerings := [], stopped_containers := [], deleted_ports := [] }

/-- `_create_ports`: one bulk `create_port` request with one body entry
`(name := "pvn.{id}.app.{i}", network_id)` per app; the oracle answers
with the created `(id, ip)` pairs. -/
def create_ports (be : Backend) (pvn_id count : Nat) (network : String) :
    Option (List (String × String)) :=
  be.create_port ((List.range count).map
    (fun i => (s!"pvn.{pvn_id}.app.{i}", network)))

/-- The `except Exception` handler of `_start_pvn`: forced teardown, then
re-raise (the error is reported in the result). -/
def start_fail (s : model.ModelState) (pvn_id : Nat) (t : Trace)
    (msg : String) : model.ModelState × Trace × Option String :=
  match teardown_pvn s pvn_id true with
  | (s2, eff, _) =>
    (s2,
     { t with
        deleted_steerings := eff.deleted_steerings
        stopped_containers := eff.stopped_containers
        deleted_ports := eff.deleted_ports },
     some msg)

/-- `_start_pvn(pvn_id, pvn_json)`.  Containers are spawned one per app
(every spawned green thread executes its `run`, so containers created
before a later failure are reported in `started_containers`); the joins
(`thread.wait()`) surface the first failure.  `set_apps` is only reached
when every container start succeeded. -/
def start_pvn (be : Backend) (cfg : Config) (s : model.ModelState)
    (pvn_id : Nat) (p : PVNJson) :
    model.ModelState × Trace × Option String :=
  match create_ports be pvn_id p.apps.length cfg.network_id with
  | none => start_fail s pvn_id emptyTrace "create_port failed"
  | some ports =>
    let t1 := { emptyTrace with created_ports := ports }
    match model.set_ports s pvn_id (ports.map (fun pr => pr.1)) with
    | (s1, some _) => start_fail s1 pvn_id t1 "PVNInvalidState"
    | (s1, none) =>
      let runs := (p.apps.zip ports).map (fun ap => be.run ap.2.1 ap.1)
      let t2 := { t1 with started_containers := runs.filterMap (fun r => r) }
      if runs.all (fun r => r.isSome) then
        match model.set_apps s1 pvn_id (runs.filterMap (fun r => r)) with
        | (s2, some _) => start_fail s2 pvn_id t2 "PVNInvalidState"
        | (s2, none) =>
          let steerings := prepare_all_steerings cfg ports p.chains
          let t3 := { t2 with created_steerings := steerings }
          match be.post_steerings steerings with
          | none => start_fail s2 pvn_id t3 "create_steerings failed"
          | some ids =>
            match model.set_steerings s2 pvn_id ids with
            | (s3, some _) => start_fail s3 pvn_id t3 "PVNInvalidState"
            | (s3, none) => (s3, t3, none)
      else
        start_fail s1 pvn_id t2 "Container failed to start."

end driver

namespace api

/-- The JSON body of `POST /v1/pvn` as the handler probes it: the handler
tests membership of the keys `client_id` and `pvn` (NOT `client_ip`,
which it never reads). -/
structure RequestBody where
  client_id : Option String := none
  client_ip : Option String := none
  pvn : Option driver.PVNJson := none

/-- `create_pvn` of `pvn_controller/api.py`: missing `client_id`/`pvn`
keys give a 400; otherwise `driver.initialize_pvn(data["client_id"],
data["pvn"])` and a 200 whose body is the decimal id.  The
`except ValidationException` branch evaluates `ve.message`, an attribute
`ValidationException` does not define, so the handler itself raises
`AttributeError` and the WSGI layer answers 500, not 400. -/
def create_pvn (s : model.ModelState) (data : RequestBody) :
    model.ModelState × Nat × String :=
  match data.client_id, data.pvn with
  | some cid, some p =>
    (match driver.initialize_pvn s cid p with
     | (s1, Except.ok id) => (s1, 200, toString id)
     | (s1, Except.error _) => (s1, 500, "Internal Server Error"))
  | _, _ => (s, 400, "Missing client_id or pvn field in data")

end api

namespace agent

/-- A steering-rule record as the agent sees it (the payload fields read
by `_prepare_matches`). -/
structure Rule where
  ethertype : Option Nat := none
  src_ip : Option String := none
  dest_ip : Option String := none
  protocol : Option Nat := none
  src_port : Option Nat := none
  dest_port : Option Nat := none
deriving DecidableEq, Repr

/-- Python truthiness of `rule.get(key)` for a numeric column: absent or 0
is falsy. -/
def truthyN : Option Nat → Bool
  | none => false
  | some n => n != 0

/-- Python truthiness for a string column: absent or empty is falsy. -/
def truthyS : Option String → Bool
  | none => false
  | some s => s != ""

/-- One `match_kwargs` dict (`none` = key absent). -/
structure Match where
  in_port : Nat
  eth_type : Nat
  ipv4_src : Option String := none
  ipv4_dst : Option String := none
  ipv6_src : Option String := none
  ipv6_dst : Option String := none
  ip_proto : Option Nat := none
  tcp_src : Option Nat := none
  tcp_dst : Option Nat := none
  udp_src : Option Nat := none
  udp_dst : Option Nat := none
deriving DecidableEq, Repr

/-- The non-expanding body of `_prepare_matches` for a concrete
`eth_type` value (the source reaches it with `rule["ethertype"] = eth`). -/
def buildMatch (ofport : Nat) (eth : Nat) (r : Rule) : Match :=
  { in_port := ofport
    eth_type := eth
    ipv4_src := if eth == 0x0800 && truthyS r.src_ip then r.src_ip else none
    ipv4_dst := if eth == 0x0800 && truthyS r.dest_ip then r.dest_ip else none
    ipv6_src := if eth == 0x86DD && truthyS r.src_ip then r.src_ip else none
    ipv6_dst := if eth == 0x86DD && truthyS r.dest_ip then r.dest_ip else none
    ip_proto := if truthyN r.protocol then r.protocol else none
    tcp_src := if truthyN r.protocol && r.protocol == some 0x06 &&
        truthyN r.src_port then r.src_port else none
    tcp_dst := if truthyN r.protocol && r.protocol == some 0x06 &&
        truthyN r.dest_port then r.dest_port else none
    udp_src := if truthyN r.protocol && r.protocol == some 0x11 &&
        truthyN r.src_port then r.src_port else none
    udp_dst := if truthyN r.protocol && r.protocol == some 0x11 &&
        truthyN r.dest_port then r.dest_port else none }

/-- `_prepare_matches(ofport, rule)`: a falsy `ethertype` is expanded into
the head matches of the IPv4 and IPv6 instantiations (the recursive calls
of the source hit the non-expanding branch, so this is exactly
`[buildMatch 0x0800, buildMatch 0x86DD]`); otherwise a single match. -/
def prepare_matches (ofport : Nat) (r : Rule) : List Match :=
  if !truthyN r.ethertype then
    [buildMatch ofport 0x0800 r, buildMatch ofport 0x86DD r]
  else
    [buildMatch ofport (r.ethertype.getD 0) r]

/-- A match with its `eth_type` blanked, to compare the remaining
fields. -/
def dropEth (m : Match) : Match := { m with eth_type := 0 }

end agent

namespace plugin

/-- The cross-field guards of `create_port_steering` in
`neutron_ext/port_steering/model.py`: an `src_ip`/`dest_ip` without an
`ethertype` raises `UnspecifiedEthertype`, an L4 port without a
`protocol` raises `UnspecifiedProtocol`.  `true` = the record is
accepted. -/
def create_check (r : agent.Rule) : Bool :=
  !((agent.truthyS r.src_ip || agent.truthyS r.dest_ip) &&
    !agent.truthyN r.ethertype) &&
  !((agent.truthyN r.src_port || agent.truthyN r.dest_port) &&
    !agent.truthyN r.protocol)

end plugin

/-- The network configuration used by the concrete scenarios. -/
def cfgA : driver.Config :=
  { network_id := "net-1", ingress_port := "ingress-port", egress_port := "egress-port" }

/-- An edge with only `from`/`to`, as in scenario S1. -/
def edgeFT (f t : Int) : driver.Edge := { from_ := f, to_ := t }

/-- A backend on which every call succeeds: ports are numbered in request
order, containers and steering ids are derived deterministically. -/
def happyBE : driver.Backend :=
  { create_port := fun reqs =>
      some ((List.range reqs.length).map (fun i => (s!"p{i}", s!"10.0.0.{i}")))
    run := fun port _img => some ("c-" ++ port)
    post_steerings := fun st =>
      some ((List.range st.length).map (fun i => s!"st{i}")) }

/-- The S5 backend: `ContainerAPI.run` fails for the image `"v"`
(`apps[1]`), everything else succeeds. -/
def failBE : driver.Backend :=
  { create_port := fun reqs =>
      some ((List.range reqs.length).map (fun i => (s!"p{i}", s!"10.0.0.{i}")))
    run := fun port img => if img == "v" then none else some ("c-" ++ port)
    post_steerings := fun st =>
      some ((List.range st.length).map (fun i => s!"st{i}")) }

/-- Scenario S1: `apps=["u"]`, one chain from the end user through app 0
to the egress gateway. -/
def descS1 : driver.PVNJson :=
  { apps := ["u"]
    chains := [{ origin := -1, edges := [edgeFT (-1) 0, edgeFT 0 1] }] }

/-- Scenario S5: two apps, a chain visiting both. -/
def descS5 : driver.PVNJson :=
  { apps := ["u", "v"]
    chains := [{ origin := -1, edges := [edgeFT (-1) 0, edgeFT 0 1, edgeFT 1 2] }] }

/-- A diamond: two sibling branches from the origin that reconverge on
node 2 (no node is revisited along any single root-to-leaf path). -/
def diamondDesc : driver.PVNJson :=
  { apps := ["u", "v", "w"]
    chains := [{ origin := -1
                 edges := [edgeFT (-1) 0, edgeFT (-1) 1, edgeFT 0 2, edgeFT 1 2] }] }

/-- A description whose second edge names the egress gateway
(`destination = 1 = len(apps)`) as its destination. -/
def descC10 : driver.PVNJson :=
  { apps := ["u"]
    chains := [{ origin := -1
                 edges := [edgeFT (-1) 0,
                           { from_ := 0, to_ := 1, ethertype := some "IPv4",
                             destination := some 1 }] }] }

/-- The model state right after `initialize_pvn` reserved id 1 for
client `10.0.0.7`. -/
def s1Init : model.ModelState :=
  (model.create_pvn { pvn_db := [], next_id := 1 } "10.0.0.7").1

/-- The S1 provisioning run: `_start_pvn` against the always-succeeding
backend. -/
def s1Run : model.ModelState × driver.Trace × Option String :=
  driver.start_pvn happyBE cfgA s1Init 1 descS1

/-- The model state right after `initialize_pvn` reserved id 1 for the S5
client. -/
def s5Init : model.ModelState :=
  (model.create_pvn { pvn_db := [], next_id := 1 } "10.0.0.8").1

/-- The S5 provisioning run: `_start_pvn` against the backend whose
`run` fails for `apps[1]`. -/
def s5Run : model.ModelState × driver.Trace × Option String :=
  driver.start_pvn failBE cfgA s5Init 1 descS5

/-- A fully provisioned (ACTIVE) PVN record for id 1. -/
def sActive : model.ModelState :=
  { pvn_db := [(1, { client_ip := "10.0.0.7", status := model.Status.ACTIVE,
                     ports := ["p1"], apps := ["a1"], steering := ["s1"] })]
    next_id := 2 }

/-- The same record already torn down to DELETED. -/
def sDeleted : model.ModelState :=
  { pvn_db := [(1, { client_ip := "10.0.0.7", status := model.Status.DELETED,
                     ports := [], apps := [], steering := [] })]
    next_id := 2 }

/-- Ports/edge used to evaluate `_prepare_steering` concretely. -/
def cePorts : List (String × String) := [("portA", "10.0.0.5")]

/-- An IPv4 edge from the end user to app 0 whose ultimate destination is
app 0. -/
def ceEdge : driver.Edge :=
  { from_ := -1, to_ := 0, ethertype := some "IPv4", destination := some 0 }

/-- Helper: the edge loop of `_start_pvn` emits two steerings per
ethertype-less edge and one otherwise. -/
theorem prepare_edge_steerings_length (cfg : driver.Config)
    (ports : List (String × String)) (es : List driver.Edge) :
    (driver.prepare_edge_steerings cfg ports es).length =
      driver.edge_rule_count es := by
  induction es with
  | nil => rfl
  | cons e rest ih =>
    by_cases h : e.ethertype = none <;>
      simp [driver.prepare_edge_steerings, driver.edge_rule_count, h, ih] <;>
      omega

/-- Helper: summed over all chains. -/
theorem prepare_all_steerings_length (cfg : driver.Config)
    (ports : List (String × String)) (cs : List driver.Chain) :
    (driver.prepare_all_steerings cfg ports cs).length =
      driver.chain_rule_count cs := by
  induction cs with
  | nil => rfl
  | cons c rest ih =>
    simp [driver.prepare_all_steerings, driver.chain_rule_count,
      prepare_edge_steerings_length, ih]

/-- Helper: the per-edge index loop of `initialize_pvn` succeeds exactly
when every `from`, `to` and present `destination` is `≤ max_app_index`. -/
theorem check_edges_loop_ok (maxA o : Int) (es : List driver.Edge) :
    driver.check_edges_loop maxA o es = Except.ok () ↔
      ∀ e ∈ es, e.from_ ≤ maxA ∧ e.to_ ≤ maxA ∧
        ∀ d ∈ e.destination, d ≤ maxA := by
  induction es with
  | nil => simp [driver.check_edges_loop]
  | cons e rest ih =>
    by_cases hf : e.from_ > maxA
    · simp [driver.check_edges_loop, hf, not_le.mpr hf]
    · by_cases ht : e.to_ > maxA
      · simp [driver.check_edges_loop, hf, ht, not_le.mpr ht]
      · cases hd : e.destination with
        | none =>
          simp [driver.check_edges_loop, hf, ht, hd, ih,
            not_lt.mp hf, not_lt.mp ht]
        | some d =>
          by_cases hdm : d > maxA
          · simp [driver.check_edges_loop, hf, ht, hd, hdm,
              not_lt.mp hf, not_lt.mp ht, not_le.mpr hdm]
          · simp [driver.check_edges_loop, hf, ht, hd, hdm, ih,
              not_lt.mp hf, not_lt.mp ht, not_lt.mp hdm]

/-- C1.  The claim says a non-forced `teardown_pvn` of an ACTIVE PVN
observes ACTIVE as the previous status and therefore deletes every
steering rule, container and port and finalizes the record to DELETED.
The code disagrees: `model.teardown_pvn` never returns the previous
status, so `prev_status` is `None`, the early return always fires, no
delete task is spawned and the record is left in TEARING_DOWN. -/
theorem c1_nonforced_teardown_of_active_deletes_nothing :
    (driver.teardown_pvn sActive 1 false).2.1 = driver.emptyEffects ∧
    (driver.teardown_pvn sActive 1 false).2.2 = none ∧
    model.get_pvn_status (driver.teardown_pvn sActive 1 false).1 1 =
      some model.Status.TEARING_DOWN ∧
    ¬(model.get_pvn_status (driver.teardown_pvn sActive 1 false).1 1 =
      some model.Status.DELETED) :=
  ⟨rfl, rfl, rfl, by decide⟩

/-- C2, counterexample.  For scenario S1 the claim predicts exactly 3
steering rules (one per edge plus one bare-port DROP).  The code creates
4: each of the two ethertype-less edges is expanded into an IPv4 and an
IPv6 rule, and no bare per-port rule is assembled anywhere in
`_start_pvn`.  The PVN does reach ACTIVE. -/
theorem c2_s1_creates_four_steerings :
    s1Run.2.1.created_steerings.length = 4 ∧
    ¬(s1Run.2.1.created_steerings.length = 3) ∧
    model.get_pvn_status s1Run.1 1 = some model.Status.ACTIVE :=
  ⟨rfl, by decide, rfl⟩

/-- C2, amended.  `_start_pvn` creates only per-edge rules: one for an
edge carrying an `ethertype`, two (IPv4 and IPv6) for an edge without,
and no bare per-port rule; in particular the S1 scenario creates 4
steering rules and reaches ACTIVE. -/
theorem c2_amended_per_edge_rules_only :
    (∀ (cfg : driver.Config) (ports : List (String × String))
        (chains : List driver.Chain),
      (driver.prepare_all_steerings cfg ports chains).length =
        driver.chain_rule_count chains) ∧
    s1Run.2.1.created_steerings.length = 4 ∧
    model.get_pvn_status s1Run.1 1 = some model.Status.ACTIVE :=
  ⟨fun cfg ports chains => prepare_all_steerings_length cfg ports chains,
   rfl, rfl⟩

/-- C3.  The claim (and the spec's stated intent) is a per-branch copy of
the visited set, under which a diamond passes validation.  The code
shares one visited set across sibling branches, so the diamond
description is rejected as "not a DAG". -/
theorem c3_diamond_rejected_by_shared_visited_set :
    driver.validate_pvn diamondDesc =
      Except.error "Chain with origin -1 is not a DAG." :=
  rfl

/-- C5.  The claim says a body containing `client_ip` and `pvn` gets a
200 with the decimal PVN id.  The handler tests for `client_id`, so a
spec-conformant body is refused with a 400 "Missing client_id or pvn
field in data". -/
theorem c5_client_ip_body_rejected :
    api.create_pvn { pvn_db := [], next_id := 1 }
        { client_ip := some "10.0.0.7", pvn := some descS1 } =
      ({ pvn_db := [], next_id := 1 }, 400,
       "Missing client_id or pvn field in data") :=
  rfl

/-- C4, counterexample.  The claim predicts `src_ip = resolve(origin).ip`
and `dest_ip = resolve(destination).ip`.  The rule `_prepare_steering`
builds for `ceEdge` over `cePorts` carries NO `src_ip` at all, and its
`dest_ip` is `"o"` — character 1 of the resolved port id `"portA"` — not
the port's ip `"10.0.0.5"`. -/
theorem c4_no_src_ip_and_char_dest_ip :
    (driver.prepare_steering cfgA cePorts ceEdge).src_ip = none ∧
    (driver.prepare_steering cfgA cePorts ceEdge).dest_ip = some "o" ∧
    ¬((driver.prepare_steering cfgA cePorts ceEdge).dest_ip =
      some "10.0.0.5") :=
  ⟨rfl, rfl, by decide⟩

/-- C4, amended.  For every edge reaching `_prepare_steering` (each such
edge carries `ethertype` "IPv4" or "IPv6", since `_start_pvn` expands the
unspecified ones): the produced rule has no `src_ip`; its `ethertype` is
`0x0800` exactly for "IPv4" and `0x86DD` exactly for "IPv6" (it comes
from the edge, not from the client ip); and a present `destination` sets
`dest_ip` to element 1 of the resolved neutron-port id, not to an ip. -/
theorem c4_amended_field_mapping (cfg : driver.Config)
    (ports : List (String × String)) (e : driver.Edge)
    (he : e.ethertype = some "IPv4" ∨ e.ethertype = some "IPv6") :
    (driver.prepare_steering cfg ports e).src_ip = none ∧
    ((driver.prepare_steering cfg ports e).ethertype = some 0x0800 ↔
      e.ethertype = some "IPv4") ∧
    ((driver.prepare_steering cfg ports e).ethertype = some 0x86DD ↔
      e.ethertype = some "IPv6") ∧
    (∀ d : Int, e.destination = some d →
      (driver.prepare_steering cfg ports e).dest_ip =
        some (driver.string_index1 (driver.index_to_port cfg ports d))) := by
  refine ⟨rfl, ?_, ?_, ?_⟩
  · rcases he with h | h <;> simp [driver.prepare_steering, h]
  · rcases he with h | h <;> simp [driver.prepare_steering, h]
  · intro d hd
    simp [driver.prepare_steering, hd]

/-- C4, witness for the amended theorem at `ceEdge`. -/
theorem c4_amended_field_mapping_witness :
    (driver.prepare_steering cfgA cePorts ceEdge).src_ip = none ∧
    (driver.prepare_steering cfgA cePorts ceEdge).dest_ip =
      some (driver.string_index1 (driver.index_to_port cfgA cePorts 0)) :=
  ⟨(c4_amended_field_mapping cfgA cePorts ceEdge (Or.inl rfl)).1,
   (c4_amended_field_mapping cfgA cePorts ceEdge (Or.inl rfl)).2.2.2 0 rfl⟩

/-- C6.  The claim says a `set_ports`/`set_apps`/`set_steerings` call in
the wrong state raises `PVNInvalidState` and leaves the record unchanged.
Each setter assigns its field BEFORE checking the status: against an
ACTIVE record all three raise, yet the record now carries the new ports,
apps and steering values. -/
theorem c6_setters_mutate_before_state_check :
    (model.set_ports sActive 1 ["q"]).2 = some model.ModelError.invalidState ∧
    (model.get_pvn (model.set_ports sActive 1 ["q"]).1 1).map
      (fun r => r.ports) = some ["q"] ∧
    (model.set_apps sActive 1 ["b"]).2 = some model.ModelError.invalidState ∧
    (model.get_pvn (model.set_apps sActive 1 ["b"]).1 1).map
      (fun r => r.apps) = some ["b"] ∧
    (model.set_steerings sActive 1 ["t"]).2 =
      some model.ModelError.invalidState ∧
    (model.get_pvn (model.set_steerings sActive 1 ["t"]).1 1).map
      (fun r => r.steering) = some ["t"] :=
  ⟨rfl, rfl, rfl, rfl, rfl, rfl⟩

/-- C7.  The claim says a DELETED PVN stays DELETED across a further
`teardown_pvn` because `begin_teardown` is a no-op on TEARING_DOWN or
DELETED.  The code's `model.teardown_pvn` has no such guard: it
unconditionally writes TEARING_DOWN, so the DELETED record regresses to
TEARING_DOWN. -/
theorem c7_teardown_resurrects_deleted_record :
    model.get_pvn_status (driver.teardown_pvn sDeleted 1 false).1 1 =
      some model.Status.TEARING_DOWN ∧
    ¬(model.get_pvn_status (driver.teardown_pvn sDeleted 1 false).1 1 =
      some model.Status.DELETED) :=
  ⟨rfl, by decide⟩

/-- C8, counterexample.  In scenario S5 the container for `apps[0]` IS
started (`"c-p0"`), but the forced teardown stops no container: the
failure happens before `set_apps`, so the model's `apps` list is still
empty and the spawned stop tasks have nothing to stop. -/
theorem c8_started_container_never_stopped :
    s5Run.2.1.started_containers = ["c-p0"] ∧
    s5Run.2.1.stopped_containers = [] :=
  ⟨rfl, rfl⟩

/-- C8, amended.  When `ContainerAPI.run` fails for `apps[1]`,
`_start_pvn` calls `teardown_pvn(pvn_id, force=True)` and re-raises; the
forced teardown deletes the created ports (both, since `_create_ports`
bulk-creates one per app up front), removes the PVN (DELETED) and
creates no steering rules — but it does not stop the container already
started for `apps[0]`, because the model's `apps` list was never set. -/
theorem c8_amended_forced_teardown_after_run_failure :
    s5Run.2.2.isSome = true ∧
    s5Run.2.1.deleted_ports = ["p0", "p1"] ∧
    s5Run.2.1.created_steerings = [] ∧
    s5Run.2.1.stopped_containers = [] ∧
    model.get_pvn_status s5Run.1 1 = some model.Status.DELETED :=
  ⟨rfl, rfl, rfl, rfl, rfl⟩

/-- C9.  A rule with null `ethertype` that passes the plugin's create-time
guards (which force `src_ip`/`dest_ip` to be absent when `ethertype` is)
is expanded by `_prepare_matches` into exactly two matches, with
`eth_type` 0x0800 and 0x86DD, identical in every other field. -/
theorem c9_null_ethertype_two_identical_matches (ofport : Nat)
    (r : agent.Rule) (h1 : r.ethertype = none)
    (h2 : plugin.create_check r = true) :
    agent.prepare_matches ofport r =
      [agent.buildMatch ofport 0x0800 r, agent.buildMatch ofport 0x86DD r] ∧
    (agent.buildMatch ofport 0x0800 r).eth_type = 0x0800 ∧
    (agent.buildMatch ofport 0x86DD r).eth_type = 0x86DD ∧
    agent.dropEth (agent.buildMatch ofport 0x0800 r) =
      agent.dropEth (agent.buildMatch ofport 0x86DD r) := by
  have h2a := h2
  simp only [plugin.create_check, h1, agent.truthyN, Bool.not_false,
    Bool.and_true, Bool.and_eq_true, Bool.not_eq_true', Bool.or_eq_false_iff] at h2a
  have hsd := h2a.1
  refine ⟨?_, rfl, rfl, ?_⟩
  · simp [agent.prepare_matches, h1, agent.truthyN]
  · simp [agent.dropEth, agent.buildMatch, hsd.1, hsd.2]

/-- A concrete rule for the C9 witness: null `ethertype`, a TCP source
port, no L3 ips. -/
def c9rule : agent.Rule :=
  { ethertype := none, protocol := some 6, src_port := some 80 }

/-- C9, witness at `c9rule` and ofport 7. -/
theorem c9_null_ethertype_two_identical_matches_witness :
    c9rule.ethertype = none ∧ plugin.create_check c9rule = true ∧
    agent.prepare_matches 7 c9rule =
      [agent.buildMatch 7 0x0800 c9rule, agent.buildMatch 7 0x86DD c9rule] ∧
    agent.dropEth (agent.buildMatch 7 0x0800 c9rule) =
      agent.dropEth (agent.buildMatch 7 0x86DD c9rule) :=
  ⟨rfl, by decide,
   (c9_null_ethertype_two_identical_matches 7 c9rule rfl (by decide)).1,
   (c9_null_ethertype_two_identical_matches 7 c9rule rfl (by decide)).2.2.2⟩

/-- C10, counterexample.  The claim says every edge whose `destination`
equals `len(apps)` is rejected.  `descC10` has `len(apps) = 1` and an
edge with `destination = 1`, and the whole validation accepts it: the
code only rejects `destination > len(apps)`. -/
theorem c10_destination_egress_accepted :
    driver.validate_pvn descC10 = Except.ok () ∧
    descC10.apps.length = 1 ∧
    ((descC10.chains.getD 0 { origin := 0, edges := [] }).edges.getD 1
      (edgeFT 0 0)).destination = some 1 :=
  ⟨rfl, rfl, rfl⟩

/-- C10, amended.  The per-chain index validation accepts `origin`,
`from`, `to` AND `destination` up to and including `len(apps)`; it
rejects a `destination` (like the other indices) only when it is
strictly greater than `len(apps)`. -/
theorem c10_amended_index_check_bounds (maxA : Int) (c : driver.Chain) :
    driver.check_chain_indices maxA c = Except.ok () ↔
      (c.origin ≤ maxA ∧ ∀ e ∈ c.edges,
        e.from_ ≤ maxA ∧ e.to_ ≤ maxA ∧ ∀ d ∈ e.destination, d ≤ maxA) := by
  by_cases ho : c.origin > maxA
  · simp [driver.check_chain_indices, ho, not_le.mpr ho]
  · simp [driver.check_chain_indices, ho, not_lt.mp ho, check_edges_loop_ok]

/-- C10, witness: the amended theorem applied to a chain whose edge has
`destination = 1 = maxA`. -/
theorem c10_amended_index_check_bounds_witness :
    driver.check_chain_indices 1
      { origin := -1,
        edges := [{ from_ := 0, to_ := 1, ethertype := some "IPv4",
                    destination := some 1 }] } = Except.ok () :=
  (c10_amended_index_check_bounds 1
    { origin := -1,
      edges := [{ from_ := 0, to_ := 1, ethertype := some "IPv4",
                  destination := some 1 }] }).mpr (by decide)
